import Mathlib

/-!
# Verification of the radiobot controller (src/main.py)

A shallow embedding of the observable behavior of `src/main.py`. Each
Python function whose behavior the specification describes is translated
into a pure Lean function that returns the list of externally visible
actions (GPIO calls, display commands, settings writes, process exit,
power-off request, player calls) it performs, together with any global
state it updates. Timestamps are rationals, in seconds, matching the
floating-point seconds of Python `time.time()` (the constants involved,
0.4, 0.5 and 0.05, are exactly representable).
-/

namespace Radiobot

/-- The five button callbacks registered with `GPIO.add_event_detect`
in `configure_GPIO_pins` and `set_as_ready` (src/main.py lines 47-50 and 57). -/
inductive Callback where
  | volumeUpCb
  | volumeDownCb
  | nextRadioCb
  | previousRadioCb
  | haltCb
deriving DecidableEq, Repr

/-- Externally visible actions performed by main.py. -/
inductive Event where
  | gpioSetModeBCM : Event
  | gpioSetupIn : Nat → Event
  | gpioSetupOut : Nat → Event
  | gpioOutputLow : Nat → Event
  | gpioAddEventDetect : Nat → Callback → Event
  | gpioCleanup : Event
  | sleepSeconds : ℚ → Event
  | displayStart : Event
  | displayTerminate : Event
  | displayIpAddress : String → Event
  | printIp : String → Event
  | saveSettings : Nat → Nat → Event
  | powerOffCommand : Event
  | exitProcess : Nat → Event
  | playerVolumeUp : Event
  | playerVolumeDown : Event
  | playRadio : Nat → Event
  | checkRadioInfo : Event
  | updatePlayer : Event
deriving DecidableEq, Repr

/-- True exactly on `saveSettings` events (calls to `configLoader.save_settings`). -/
def Event.isSave : Event → Bool
  | Event.saveSettings _ _ => true
  | _ => false

/-- Modelled from the spec: `radioManager.py` is not under src/. Per the
spec, `get_current_volume` and the station-index accessor (called
`get_current_radio_indice` by main.py) are pure accessors with no side
effects, used only at shutdown for persistence; the manager carries the
current volume and current station index. -/
structure RadioManager where
  volume : Nat
  radio_indice : Nat
deriving DecidableEq, Repr

/-- Pure accessor for the current volume (spec §4.1). -/
def RadioManager.get_current_volume (r : RadioManager) : Nat := r.volume

/-- Pure accessor for the current station index (spec §4.1). -/
def RadioManager.get_current_radio_indice (r : RadioManager) : Nat := r.radio_indice

/-- The module-level mutable state of main.py that is written during a
run: `ip_timer` (src/main.py line 29). The other module globals are the
four manager references, assigned once during init. Note that main.py
declares no shutdown flag. -/
structure Globals where
  ip_timer : ℚ
deriving DecidableEq, Repr

/-- Module-load state: `ip_timer = 0` (src/main.py line 29). -/
def initialGlobals : Globals := { ip_timer := 0 }

/-- `clean_exit_and_shutdown` (src/main.py lines 155-170): GPIO.cleanup,
display terminate, save_settings with the two accessor values, the
`sudo shutdown -h now` subprocess call, then `sys.exit(0)`. -/
def clean_exit_and_shutdown (r : RadioManager) : List Event :=
  [Event.gpioCleanup, Event.displayTerminate,
   Event.saveSettings r.get_current_volume r.get_current_radio_indice,
   Event.powerOffCommand, Event.exitProcess 0]

/-- `clean_exit` (src/main.py lines 172-186): the same steps without the
power-off subprocess call. -/
def clean_exit (r : RadioManager) : List Event :=
  [Event.gpioCleanup, Event.displayTerminate,
   Event.saveSettings r.get_current_volume r.get_current_radio_indice,
   Event.exitProcess 0]

/-- `clean_exit` run in an environment where the GPIO release, the
display-termination handoff, or the settings write may raise. The body
of `clean_exit` (src/main.py lines 172-186) contains no try/except, so
by Python semantics the first raising call aborts the function: the
steps before it are performed, the remaining steps are not, and the
exception escapes to the caller. Returns the performed events and
whether an exception escaped. -/
def clean_exit_fallible (r : RadioManager)
    (gpioFails displayFails saveFails : Bool) : List Event × Bool :=
  if gpioFails then ([], true)
  else if displayFails then ([Event.gpioCleanup], true)
  else if saveFails then ([Event.gpioCleanup, Event.displayTerminate], true)
  else (clean_exit r, false)

/-- The three ways the shutdown sequence is entered: the halt button
(`halt_callback`, line 143), SIGTERM (`sigterm_callback`, line 188), and
a KeyboardInterrupt caught by `main` (line 218). -/
inductive ShutdownTrigger where
  | haltButton
  | sigterm
  | keyboardInterrupt
deriving DecidableEq, Repr

/-- Shutdown trace per trigger: `halt_callback` calls
`clean_exit_and_shutdown`; `sigterm_callback` and the KeyboardInterrupt
handler in `main` call `clean_exit`. -/
def shutdownTrace : ShutdownTrigger → RadioManager → List Event
  | ShutdownTrigger.haltButton, r => clean_exit_and_shutdown r
  | ShutdownTrigger.sigterm, r => clean_exit r
  | ShutdownTrigger.keyboardInterrupt, r => clean_exit r

/-- The halt callback (on the GPIO dispatch thread) and the SIGTERM
handler (on the main thread) both running to completion, in the
interleaving where the signal handler runs second. Nothing in main.py
guards either sequence: `sys.exit` in the callback thread only raises
SystemExit in that thread, so both sequences can complete in one
process run. -/
def halt_then_sigterm (r : RadioManager) : List Event :=
  clean_exit_and_shutdown r ++ clean_exit r

/-- `volume_up_callback` (src/main.py lines 108-121). `lookupResult =
none` models `ni.ifaddresses` raising or the address key being absent;
`displayPushFails` models `displayManager.on_thread` raising. Both sit
inside the bare `except: pass`. Returns the (unchanged) globals, the
events performed, and whether an exception escaped the handler. -/
def volume_up_callback (now : ℚ) (g : Globals) (lookupResult : Option String)
    (displayPushFails : Bool) : Globals × List Event × Bool :=
  if now - g.ip_timer < 2/5 then
    match lookupResult with
    | some ip =>
        if displayPushFails then (g, ([Event.printIp ip], false))
        else (g, ([Event.printIp ip, Event.displayIpAddress ip], false))
    | none => (g, ([], false))
  else (g, ([Event.playerVolumeUp], false))

/-- `volume_down_callback` (src/main.py lines 123-129): set the global
`ip_timer` to the current time, then call `radioManager.volume_down()`. -/
def volume_down_callback (now : ℚ) (_g : Globals) : Globals × List Event :=
  ({ ip_timer := now }, [Event.playerVolumeDown])

/-- `configure_GPIO_pins` (src/main.py lines 36-50): BCM mode, four input
pins, four listeners armed. -/
def configure_GPIO_pins : List Event :=
  [Event.gpioSetModeBCM,
   Event.gpioSetupIn 27, Event.gpioSetupIn 23,
   Event.gpioSetupIn 24, Event.gpioSetupIn 25,
   Event.gpioAddEventDetect 27 Callback.volumeUpCb,
   Event.gpioAddEventDetect 23 Callback.volumeDownCb,
   Event.gpioAddEventDetect 24 Callback.nextRadioCb,
   Event.gpioAddEventDetect 25 Callback.previousRadioCb]

/-- `set_as_ready` (src/main.py lines 52-57): drive pin 4 low as an
output, hold for 0.5 s, then re-arm pin 4 as the halt input. -/
def set_as_ready : List Event :=
  [Event.gpioSetupOut 4, Event.gpioOutputLow 4, Event.sleepSeconds (1/2),
   Event.gpioSetupIn 4, Event.gpioAddEventDetect 4 Callback.haltCb]

/-- `init_radiobot` (src/main.py lines 61-101): configure_GPIO_pins runs
first; then configuration loading, whose failure (`configOk = false`,
modelling ConfigLoader raising) calls `sys.exit(2)`; on success the
display is started, readiness is signalled, and the first station is
played. `radio_indice` is the persisted station index supplied by the
configuration (`configLoader.radio_indice`). -/
def init_radiobot (configOk : Bool) (radio_indice : Nat) : List Event :=
  configure_GPIO_pins ++
    (if configOk then
      [Event.displayStart] ++ set_as_ready ++ [Event.playRadio radio_indice]
    else [Event.exitProcess 2])

/-- The guard of the foreground loop in `main` (src/main.py line 214) is
the literal `True` of `while True`. -/
def loop_guard : Bool := true

/-- One execution of the body of the foreground loop (src/main.py lines
215-217): `check_radio_info()`, then `update_player()`, then
`time.sleep(0.05)`. -/
def loop_body : List Event :=
  [Event.checkRadioInfo, Event.updatePlayer, Event.sleepSeconds (1/20)]

/-- The `while True` loop observed for a given number of iterations:
each iteration re-tests the guard and runs the body. -/
def while_true_loop : Nat → List Event
  | 0 => []
  | n + 1 => if loop_guard then loop_body ++ while_true_loop n else []

/-- Trace of `main`'s loop when a KeyboardInterrupt arrives after `k`
complete iterations: the try/except around the loop (src/main.py lines
213-219) catches it and runs `clean_exit`. -/
def main_trace (k : Nat) (r : RadioManager) : List Event :=
  while_true_loop k ++ clean_exit r

theorem while_true_loop_succ (n : Nat) :
    while_true_loop (n + 1) = loop_body ++ while_true_loop n := by
  simp [while_true_loop, loop_guard]

/-- Claim C1 counterexample: the claim says a process-wide shutdown
flag guards the shutdown sequence so that save_settings is performed
exactly once even when two triggers fire. At the concrete manager state
(volume 5, station 2), the halt-button callback followed by the SIGTERM
handler performs save_settings twice, not once: no flag exists. -/
theorem C1_counterexample :
    List.countP Event.isSave
        (halt_then_sigterm { volume := 5, radio_indice := 2 }) = 2 ∧
      List.countP Event.isSave
        (halt_then_sigterm { volume := 5, radio_indice := 2 }) ≠ 1 := by
  constructor <;> decide

/-- Claim C1 (amended): main.py defines no shutdown flag, and nothing
guards `clean_exit` / `clean_exit_and_shutdown`; each invocation of a
shutdown sequence performs save_settings once, so two triggers that both
run (halt callback on the GPIO thread plus the SIGTERM handler on the
main thread) perform it twice. At-most-once holds only because a
completed trigger exits the process. -/
theorem C1_unguarded_double_save (r : RadioManager) :
    List.countP Event.isSave (clean_exit r) = 1 ∧
      List.countP Event.isSave (clean_exit_and_shutdown r) = 1 ∧
      List.countP Event.isSave (halt_then_sigterm r) = 2 := by
  refine ⟨?_, ?_, ?_⟩ <;>
    simp [halt_then_sigterm, clean_exit, clean_exit_and_shutdown,
      Event.isSave, List.countP_cons, List.countP_append]

/-- Claim C2: only the halt-button trigger requests an OS-level
power-off; SIGTERM and KeyboardInterrupt run the shutdown steps without
a power-off and end with `sys.exit(0)`. -/
theorem C2_power_off_only_halt (t : ShutdownTrigger) (r : RadioManager) :
    (Event.powerOffCommand ∈ shutdownTrace t r ↔ t = ShutdownTrigger.haltButton) ∧
      Event.exitProcess 0 ∈ shutdownTrace t r := by
  cases t <;>
    simp [shutdownTrace, clean_exit, clean_exit_and_shutdown]

/-- Claim C4: every run of the shutdown sequence performs GPIO release,
then display termination, then save_settings of the two pure accessor
values, and only then the terminating action; for every trigger the
trace ends with `sys.exit(0)`. -/
theorem C4_shutdown_step_order (t : ShutdownTrigger) (r : RadioManager) :
    List.Sublist
        [Event.gpioCleanup, Event.displayTerminate,
         Event.saveSettings r.get_current_volume r.get_current_radio_indice,
         Event.exitProcess 0]
        (shutdownTrace t r) ∧
      (shutdownTrace t r).getLast? = some (Event.exitProcess 0) ∧
      (t = ShutdownTrigger.haltButton →
        List.Sublist
          [Event.saveSettings r.get_current_volume r.get_current_radio_indice,
           Event.powerOffCommand, Event.exitProcess 0]
          (shutdownTrace t r)) := by
  cases t <;>
    refine ⟨?_, rfl, ?_⟩ <;>
      first
        | exact List.Sublist.cons₂ _ (List.Sublist.cons₂ _ (List.Sublist.cons₂ _
            (List.Sublist.cons _ (List.Sublist.cons₂ _ List.Sublist.slnil))))
        | exact fun h => List.Sublist.cons _ (List.Sublist.cons _
            (List.Sublist.cons₂ _ (List.Sublist.cons₂ _
              (List.Sublist.cons₂ _ List.Sublist.slnil))))
        | exact List.Sublist.refl _
        | exact fun h => absurd h (by simp)

/-- Claim C4 witness: the order theorem applied to the halt trigger at a
concrete manager state, discharging the trigger-equality hypothesis. -/
theorem C4_shutdown_step_order_witness :
    List.Sublist
        [Event.saveSettings 5 2, Event.powerOffCommand, Event.exitProcess 0]
        (shutdownTrace ShutdownTrigger.haltButton { volume := 5, radio_indice := 2 }) :=
  (C4_shutdown_step_order ShutdownTrigger.haltButton
    { volume := 5, radio_indice := 2 }).2.2 rfl

/-- Claim C5 counterexample: the claim says a failing step never
prevents the remaining steps, so the sequence always reaches its final
terminate action. If `GPIO.cleanup()` raises, `clean_exit` performs
nothing further: no settings write and no `sys.exit(0)` happen, and the
exception escapes. -/
theorem C5_counterexample :
    (clean_exit_fallible { volume := 5, radio_indice := 2 } true false false).1 = [] ∧
      Event.exitProcess 0 ∉
        (clean_exit_fallible { volume := 5, radio_indice := 2 } true false false).1 ∧
      (clean_exit_fallible { volume := 5, radio_indice := 2 } true false false).2 = true := by
  refine ⟨?_, ?_, ?_⟩ <;> decide

/-- Claim C5 (amended): `clean_exit` has no try/except, so the first
step that raises aborts all remaining steps: the final `sys.exit(0)` is
reached exactly when no step fails, an exception escapes exactly when
some step fails, and with no failures the full sequence runs. -/
theorem C5_first_failure_aborts (r : RadioManager)
    (gpioFails displayFails saveFails : Bool) :
    (Event.exitProcess 0 ∈ (clean_exit_fallible r gpioFails displayFails saveFails).1 ↔
        (gpioFails = false ∧ displayFails = false ∧ saveFails = false)) ∧
      (clean_exit_fallible r gpioFails displayFails saveFails).2 =
        (gpioFails || displayFails || saveFails) ∧
      clean_exit_fallible r false false false = (clean_exit r, false) := by
  cases gpioFails <;> cases displayFails <;> cases saveFails <;>
    simp [clean_exit_fallible, clean_exit]

/-- Claim C6 counterexample: the claim says the non-zero exit on a
configuration failure happens before any hardware listener is armed. In
the failing-configuration trace, the volume-up listener on pin 27 is
armed at an earlier position than the `sys.exit(2)` event. -/
theorem C6_counterexample :
    Event.gpioAddEventDetect 27 Callback.volumeUpCb ∈ init_radiobot false 3 ∧
      Event.exitProcess 2 ∈ init_radiobot false 3 ∧
      (init_radiobot false 3).findIdx
          (fun e => e == Event.gpioAddEventDetect 27 Callback.volumeUpCb) <
        (init_radiobot false 3).findIdx (fun e => e == Event.exitProcess 2) := by
  refine ⟨?_, ?_, ?_⟩ <;> decide

/-- Claim C6 (amended): a configuration failure makes the process exit
with status 2 (non-zero) as the last action, before the display is
started, before the halt pin is armed, and before any station is
played — but after `configure_GPIO_pins` has already armed the four button
listeners. -/
theorem C6_config_failure_exit (i : Nat) :
    (init_radiobot false i).getLast? = some (Event.exitProcess 2) ∧
      Event.exitProcess 0 ∉ init_radiobot false i ∧
      Event.displayStart ∉ init_radiobot false i ∧
      Event.gpioAddEventDetect 4 Callback.haltCb ∉ init_radiobot false i ∧
      Event.playRadio i ∉ init_radiobot false i ∧
      Event.gpioAddEventDetect 27 Callback.volumeUpCb ∈ init_radiobot false i := by
  refine ⟨rfl, ?_, ?_, ?_, ?_, ?_⟩ <;>
    simp [init_radiobot, configure_GPIO_pins]

theorem loop_body_append_get (rest : List Event) (n : Nat) :
    (loop_body ++ rest).get? (n + 3) = rest.get? n := rfl

theorem while_true_loop_length (k : Nat) :
    (while_true_loop k).length = 3 * k := by
  induction k with
  | zero => rfl
  | succ m ih =>
    rw [while_true_loop_succ]
    simp [loop_body, ih]
    omega

theorem while_true_loop_get (i : Nat) :
    ∀ k : Nat, i < k →
      (while_true_loop k).get? (3 * i) = some Event.checkRadioInfo ∧
      (while_true_loop k).get? (3 * i + 1) = some Event.updatePlayer ∧
      (while_true_loop k).get? (3 * i + 2) = some (Event.sleepSeconds (1/20)) := by
  induction i with
  | zero =>
    intro k hk
    match k, hk with
    | m + 1, _ =>
      rw [while_true_loop_succ]
      exact ⟨rfl, rfl, rfl⟩
  | succ j ih =>
    intro k hk
    match k, hk with
    | m + 1, hk =>
      have hj : j < m := Nat.lt_of_succ_lt_succ hk
      rw [while_true_loop_succ]
      refine ⟨?_, ?_, ?_⟩
      · have h1 : 3 * (j + 1) = 3 * j + 3 := by ring
        rw [h1, loop_body_append_get]
        exact (ih m hj).1
      · have h2 : 3 * (j + 1) + 1 = (3 * j + 1) + 3 := by ring
        rw [h2, loop_body_append_get]
        exact (ih m hj).2.1
      · have h3 : 3 * (j + 1) + 2 = (3 * j + 2) + 3 := by ring
        rw [h3, loop_body_append_get]
        exact (ih m hj).2.2

theorem exit_not_mem_while_true_loop (c k : Nat) :
    Event.exitProcess c ∉ while_true_loop k := by
  induction k with
  | zero => simp [while_true_loop]
  | succ m ih =>
    rw [while_true_loop_succ]
    simp [loop_body, ih]

/-- Claim C7: the foreground loop guard is the constant true (no normal
fall-through); each of the first k iterations performs check_radio_info,
then update_player, then a 0.05 s sleep, at positions 3i, 3i+1, 3i+2; the
loop itself never exits the process; and the trace of main ends with the
clean_exit shutdown sequence, whose sys.exit(0) is the last action. -/
theorem C7_foreground_loop (k : Nat) (r : RadioManager) :
    loop_guard = true ∧
      (while_true_loop k).length = 3 * k ∧
      (∀ i, i < k →
        (while_true_loop k).get? (3 * i) = some Event.checkRadioInfo ∧
        (while_true_loop k).get? (3 * i + 1) = some Event.updatePlayer ∧
        (while_true_loop k).get? (3 * i + 2) = some (Event.sleepSeconds (1/20))) ∧
      (∀ c : Nat, Event.exitProcess c ∉ while_true_loop k) ∧
      (clean_exit r).IsSuffix (main_trace k r) ∧
      (main_trace k r).getLast? = some (Event.exitProcess 0) := by
  refine ⟨rfl, while_true_loop_length k, fun i hi => while_true_loop_get i k hi,
    fun c => exit_not_mem_while_true_loop c k, ⟨while_true_loop k, rfl⟩, ?_⟩
  rw [main_trace, clean_exit, List.getLast?_append_cons]
  rfl

/-- Claim C7 witness: the loop theorem applied with two iterations and a
concrete manager state, discharging the iteration-bound hypothesis at
iteration 1. -/
theorem C7_foreground_loop_witness :
    (while_true_loop 2).get? 4 = some Event.updatePlayer ∧
      (main_trace 2 { volume := 5, radio_indice := 2 }).getLast? =
        some (Event.exitProcess 0) :=
  ⟨((C7_foreground_loop 2 { volume := 5, radio_indice := 2 }).2.2.1 1
      (by decide)).2.1,
   (C7_foreground_loop 2 { volume := 5, radio_indice := 2 }).2.2.2.2.2⟩

/-- Claim C8: in the successful startup trace, readiness signalling
(drive pin 4 low as an output, hold the 0.5 s settle delay, re-arm pin 4
as the halt input) happens in that order, and the first station is
played with the persisted index only after all of it, as the last
startup action. -/
theorem C8_startup_order (i : Nat) :
    List.Sublist
        [Event.gpioSetupOut 4, Event.gpioOutputLow 4, Event.sleepSeconds (1/2),
         Event.gpioSetupIn 4, Event.gpioAddEventDetect 4 Callback.haltCb,
         Event.playRadio i]
        (init_radiobot true i) ∧
      (init_radiobot true i).getLast? = some (Event.playRadio i) := by
  constructor
  · have h : init_radiobot true i =
        (configure_GPIO_pins ++ [Event.displayStart]) ++
          (set_as_ready ++ [Event.playRadio i]) := by
      simp [init_radiobot, List.append_assoc]
    rw [h]
    exact List.sublist_append_right _ _
  · rfl

/-- Claim C3: a volume-down press records its time as the detector
timestamp and then calls volume_down; a following volume-up press fires
the show-network-address gesture exactly when the gap is strictly below
0.4 s, in which case volume_up is never called (and the address is
pushed when lookup and display both succeed), while a gap at or beyond
0.4 s performs an ordinary volume_up instead. -/
theorem C3_double_press_gesture (t0 t1 : ℚ) (g : Globals) (ip : String) :
    (volume_down_callback t0 g).1.ip_timer = t0 ∧
      (volume_down_callback t0 g).2 = [Event.playerVolumeDown] ∧
      (t1 - t0 < 2/5 →
        (volume_up_callback t1 (volume_down_callback t0 g).1 (some ip) false).2.1 =
          [Event.printIp ip, Event.displayIpAddress ip]) ∧
      (¬ t1 - t0 < 2/5 →
        ∀ (look : Option String) (dFail : Bool),
          (volume_up_callback t1 (volume_down_callback t0 g).1 look dFail).2.1 =
            [Event.playerVolumeUp]) ∧
      (t1 - t0 < 2/5 →
        ∀ (look : Option String) (dFail : Bool),
          Event.playerVolumeUp ∉
            (volume_up_callback t1 (volume_down_callback t0 g).1 look dFail).2.1) := by
  refine ⟨rfl, rfl, ?_, ?_, ?_⟩
  · intro h
    simp [volume_up_callback, volume_down_callback, h]
  · intro h look dFail
    cases look with
    | none => simp [volume_up_callback, volume_down_callback, h]
    | some s => cases dFail <;> simp [volume_up_callback, volume_down_callback, h]
  · intro h look dFail
    cases look with
    | none => simp [volume_up_callback, volume_down_callback, h]
    | some s => cases dFail <;> simp [volume_up_callback, volume_down_callback, h]

theorem gap_300ms_lt_window : (1003 : ℚ)/10 - 100 < 2/5 := by norm_num

theorem gap_500ms_not_lt_window : ¬ ((1005 : ℚ)/10 - 100 < 2/5) := by norm_num

theorem gap_100ms_lt_window :
    (1001 : ℚ)/10 - ({ ip_timer := 100 } : Globals).ip_timer < 2/5 := by
  show (1001 : ℚ)/10 - 100 < 2/5
  norm_num

theorem epoch_ge_window : (2 : ℚ)/5 ≤ 1700000000 := by norm_num

/-- Claim C3 witness: with the volume-down press at t = 100 s, a
volume-up 0.3 s later fires the gesture and a volume-up 0.5 s later
performs an ordinary volume_up, as in the spec's example. -/
theorem C3_double_press_gesture_witness :
    (volume_up_callback ((1003 : ℚ)/10) (volume_down_callback 100 initialGlobals).1
        (some "10.0.0.2") false).2.1 =
        [Event.printIp "10.0.0.2", Event.displayIpAddress "10.0.0.2"] ∧
      (volume_up_callback ((1005 : ℚ)/10) (volume_down_callback 100 initialGlobals).1
        (some "10.0.0.2") false).2.1 = [Event.playerVolumeUp] :=
  ⟨(C3_double_press_gesture 100 ((1003 : ℚ)/10) initialGlobals "10.0.0.2").2.2.1
      gap_300ms_lt_window,
   (C3_double_press_gesture 100 ((1005 : ℚ)/10) initialGlobals "10.0.0.2").2.2.2.1
      gap_500ms_not_lt_window (some "10.0.0.2") false⟩

/-- Claim C9: when a volume-up press is recognized as the gesture, a
failed address lookup performs no action at all, a failed display push
leaves the display untouched, and in both cases no exception escapes
the handler and the globals are unchanged. -/
theorem C9_gesture_failure_swallowed (now : ℚ) (g : Globals)
    (h : now - g.ip_timer < 2/5) :
    (∀ dFail : Bool,
        (volume_up_callback now g none dFail).2.1 = [] ∧
        (volume_up_callback now g none dFail).2.2 = false ∧
        (volume_up_callback now g none dFail).1 = g) ∧
      (∀ ip : String,
        (volume_up_callback now g (some ip) true).2.1 = [Event.printIp ip] ∧
        Event.displayIpAddress ip ∉ (volume_up_callback now g (some ip) true).2.1 ∧
        (volume_up_callback now g (some ip) true).2.2 = false) := by
  constructor
  · intro dFail
    cases dFail <;> refine ⟨?_, ?_, ?_⟩ <;> simp [volume_up_callback, h]
  · intro ip
    refine ⟨?_, ?_, ?_⟩ <;> simp [volume_up_callback, h]

/-- Claim C9 witness: the swallowing theorem applied 0.1 s after a
recorded volume-down time of 100 s, discharging the gesture-window
hypothesis. -/
theorem C9_gesture_failure_swallowed_witness :
    (volume_up_callback ((1001 : ℚ)/10) { ip_timer := 100 } none false).2.1 = [] ∧
      (volume_up_callback ((1001 : ℚ)/10) { ip_timer := 100 }
        (some "10.0.0.9") true).2.2 = false :=
  ⟨((C9_gesture_failure_swallowed ((1001 : ℚ)/10) { ip_timer := 100 }
      gap_100ms_lt_window).1 false).1,
   ((C9_gesture_failure_swallowed ((1001 : ℚ)/10) { ip_timer := 100 }
      gap_100ms_lt_window).2 "10.0.0.9").2.2⟩

/-- Claim C10: ip_timer starts at 0, so a volume-up press before any
volume-down press (at any clock reading of at least 0.4 s, which every
real reading of seconds-since-epoch satisfies) never fires the gesture:
it performs an ordinary volume_up and pushes no address to the display. -/
theorem C10_initial_timer_no_gesture (now : ℚ) (h : 2/5 ≤ now)
    (look : Option String) (dFail : Bool) :
    initialGlobals.ip_timer = 0 ∧
      (volume_up_callback now initialGlobals look dFail).2.1 =
        [Event.playerVolumeUp] ∧
      ∀ ip : String, Event.displayIpAddress ip ∉
        (volume_up_callback now initialGlobals look dFail).2.1 := by
  have hn : ¬ now - initialGlobals.ip_timer < 2/5 := by
    simp [initialGlobals]
    linarith
  refine ⟨rfl, ?_, ?_⟩
  · simp [volume_up_callback, hn]
  · intro ip
    simp [volume_up_callback, hn]

/-- Claim C10 witness: the theorem applied at a realistic clock reading
(1.7e9 seconds since the epoch), discharging the clock hypothesis. -/
theorem C10_initial_timer_no_gesture_witness :
    (volume_up_callback 1700000000 initialGlobals (some "10.0.0.7") false).2.1 =
      [Event.playerVolumeUp] :=
  (C10_initial_timer_no_gesture 1700000000 epoch_ge_window
    (some "10.0.0.7") false).2.1

end Radiobot
